import Mathlib

/-!
Verification of the giantswarm/shoot multi-agent orchestration service.

This development shallowly embeds the Go sources of the repository:
  * internal/config/config.go      (environment configuration loading)
  * internal/agents/coordinator.go (coordinator construction and run loop)
  * internal/agents (collector construction, substituteTemplate)
  * internal/model (unnamed part_002: SimpleOpenAIModel adapter)
  * internal/server/handlers.go    (HTTP handlers)
  * main.go                        (startup fail-fast behaviour)

Machine integers do not occur on the verified paths; strings are Lean strings.
Go maps passed to substituteTemplate are embedded as association lists
(the fold order is a determinization of the Go map iteration; each theorem
below is insensitive to that order for the inputs it uses).
-/

namespace Shoot

/-- JSON values, modelling the data model of the Go encoding/json package as
used by the repository (json.Unmarshal into map[string]interface\x7b\x7d and
json.Decoder.Decode into a struct).  Numerals are restricted to integers and
string escapes to the simple one-character escapes; no theorem in this
development depends on fractional numbers or unicode escapes. -/
inductive Json where
  | null : Json
  | bool : Bool → Json
  | num : Int → Json
  | str : String → Json
  | arr : List Json → Json
  | obj : List (String × Json) → Json
deriving Inhabited

/-- Skip JSON whitespace. -/
def skipWs : List Char → List Char
  | c :: cs => if c = ' ' ∨ c = '\n' ∨ c = '\t' ∨ c = '\r' then skipWs cs else c :: cs
  | [] => []

/-- Parse the body of a JSON string literal, the opening quote already
consumed; returns the decoded string and the remaining input. -/
def parseStringBody : List Char → Option (String × List Char)
  | [] => none
  | '"' :: rest => some ("", rest)
  | '\\' :: e :: rest =>
    let esc : Option Char :=
      if e = '"' then some '"'
      else if e = '\\' then some '\\'
      else if e = '/' then some '/'
      else if e = 'n' then some '\n'
      else if e = 't' then some '\t'
      else if e = 'r' then some '\r'
      else none
    match esc with
    | none => none
    | some c => (parseStringBody rest).map (fun p => (String.mk (c :: p.1.data), p.2))
  | c :: rest => (parseStringBody rest).map (fun p => (String.mk (c :: p.1.data), p.2))

/-- Split a leading run of decimal digits from the input. -/
def takeDigits : List Char → List Char × List Char
  | c :: cs =>
    if c.isDigit then
      let p := takeDigits cs
      (c :: p.1, p.2)
    else ([], c :: cs)
  | [] => ([], [])

/-- Decimal value of a digit run. -/
def digitsToNat (ds : List Char) : Nat :=
  ds.foldl (fun acc c => acc * 10 + (c.toNat - 48)) 0

/-- Parse a JSON integer numeral (optional leading minus). -/
def parseNumber : List Char → Option (Json × List Char)
  | '-' :: cs =>
    match takeDigits cs with
    | ([], _) => none
    | (ds, rest) => some (Json.num (-(Int.ofNat (digitsToNat ds))), rest)
  | cs =>
    match takeDigits cs with
    | ([], _) => none
    | (ds, rest) => some (Json.num (Int.ofNat (digitsToNat ds)), rest)

mutual

/-- Fuel-indexed JSON value parser; one unit of fuel is spent per parsed
value or object/array continuation, so an input of length n parses within
fuel n + 1. -/
def parseValue : Nat → List Char → Option (Json × List Char)
  | 0, _ => none
  | Nat.succ f, cs =>
    match skipWs cs with
    | '"' :: rest => (parseStringBody rest).map (fun p => (Json.str p.1, p.2))
    | '{' :: rest =>
      match skipWs rest with
      | '}' :: r2 => some (Json.obj [], r2)
      | r2 => (parseMembers f r2).map (fun p => (Json.obj p.1, p.2))
    | '[' :: rest =>
      match skipWs rest with
      | ']' :: r2 => some (Json.arr [], r2)
      | r2 => (parseElements f r2).map (fun p => (Json.arr p.1, p.2))
    | 't' :: 'r' :: 'u' :: 'e' :: rest => some (Json.bool true, rest)
    | 'f' :: 'a' :: 'l' :: 's' :: 'e' :: rest => some (Json.bool false, rest)
    | 'n' :: 'u' :: 'l' :: 'l' :: rest => some (Json.null, rest)
    | cs2 => parseNumber cs2

/-- Parse the members of a JSON object after its opening brace, up to and
including the closing brace. -/
def parseMembers : Nat → List Char → Option (List (String × Json) × List Char)
  | 0, _ => none
  | Nat.succ f, cs =>
    match skipWs cs with
    | '"' :: rest =>
      match parseStringBody rest with
      | none => none
      | some (k, r1) =>
        match skipWs r1 with
        | ':' :: r2 =>
          match parseValue f r2 with
          | none => none
          | some (v, r3) =>
            match skipWs r3 with
            | ',' :: r4 => (parseMembers f r4).map (fun p => ((k, v) :: p.1, p.2))
            | '}' :: r4 => some ([(k, v)], r4)
            | _ => none
        | _ => none
    | _ => none

/-- Parse the elements of a JSON array after its opening bracket, up to and
including the closing bracket. -/
def parseElements : Nat → List Char → Option (List Json × List Char)
  | 0, _ => none
  | Nat.succ f, cs =>
    match parseValue f cs with
    | none => none
    | some (v, r1) =>
      match skipWs r1 with
      | ',' :: r2 => (parseElements f r2).map (fun p => (v :: p.1, p.2))
      | ']' :: r2 => some ([v], r2)
      | _ => none

end

/-- Parse a complete JSON document: one value followed only by whitespace.
This models json.Unmarshal, which rejects trailing data. -/
def parseJsonText (s : String) : Option Json :=
  match parseValue (s.length + 1) s.data with
  | some (v, rest) => if skipWs rest = [] then some v else none
  | none => none

/-- Models json.Unmarshal of an encoded argument string into a Go
map[string]interface\x7b\x7d: succeeds on a JSON object (yielding its fields)
and on the literal null (which leaves the map nil without an error), fails on
everything else. -/
def unmarshalMap (s : String) : Option (List (String × Json)) :=
  match parseJsonText s with
  | some (Json.obj kvs) => some kvs
  | some Json.null => some []
  | _ => none

end Shoot

namespace Shoot.Config

/-- An operating-system environment: a partial map from variable names to
values.  os.Getenv returns the empty string for an unset variable. -/
abbrev Env : Type := String → Option String

/-- Models os.Getenv: the value of the variable, or the empty string when it
is unset. -/
def osGetenv (env : Env) (key : String) : String :=
  (env key).getD ""

/-- The Config struct from internal/config/config.go. -/
structure Config where
  openAIAPIKey : String
  openAICoordinatorModel : String
  openAICollectorModel : String
  wcCluster : String
  orgNS : String
  debug : Bool
  otelEndpoint : String
  otelInsecure : Bool
  serverPort : String
deriving Repr, DecidableEq

/-- getEnvOrDefault from internal/config/config.go: returns the environment
value when it is non-empty, the default otherwise. -/
def getEnvOrDefault (env : Env) (key defaultValue : String) : String :=
  let value := osGetenv env key
  if value ≠ "" then value else defaultValue

/-- isDebugEnabled from internal/config/config.go. -/
def isDebugEnabled (env : Env) : Bool :=
  let debug := (osGetenv env "DEBUG").toLower
  debug == "true" || debug == "1" || debug == "yes"

/-- LoadConfig from internal/config/config.go: reads every field from the
environment, then validates the two required variables in order, returning
the first failure. -/
def LoadConfig (env : Env) : Except String Config :=
  let cfg : Config :=
    { openAIAPIKey := osGetenv env "OPENAI_API_KEY"
      openAICoordinatorModel := osGetenv env "OPENAI_COORDINATOR_MODEL"
      openAICollectorModel := getEnvOrDefault env "OPENAI_COLLECTOR_MODEL" "gpt-4o-mini"
      wcCluster := getEnvOrDefault env "WC_CLUSTER" "workload cluster"
      orgNS := getEnvOrDefault env "ORG_NS" "organization namespace"
      debug := isDebugEnabled env
      otelEndpoint := getEnvOrDefault env "OTEL_EXPORTER_OTLP_ENDPOINT" ""
      otelInsecure := getEnvOrDefault env "OTEL_EXPORTER_OTLP_INSECURE" "false" == "true"
      serverPort := getEnvOrDefault env "SERVER_PORT" "8000" }
  if cfg.openAIAPIKey = "" then
    Except.error "OPENAI_API_KEY environment variable is required"
  else if cfg.openAICoordinatorModel = "" then
    Except.error "OPENAI_COORDINATOR_MODEL environment variable is required"
  else
    Except.ok cfg

/-- From main.go: when LoadConfig returns an error, log.Fatalf exits the
process before the HTTP server is created, so the server is started exactly
when loading succeeds. -/
def serverStarts (env : Env) : Bool :=
  (LoadConfig env).isOk

/-- Models strings.ReplaceAll from the Go standard library on character
lists: every non-overlapping occurrence of the pattern is replaced, scanning
left to right.  Fuel decreases on every step; the callers supply fuel larger
than the subject length, which always suffices because each step consumes at
least one character of the subject. -/
def replaceAllChars : Nat → List Char → List Char → List Char → List Char
  | 0, s, _, _ => s
  | Nat.succ f, s, pat, rep =>
    match s with
    | [] => []
    | c :: rest =>
      if pat.isPrefixOf s then
        rep ++ replaceAllChars f (s.drop pat.length) pat rep
      else
        c :: replaceAllChars f rest pat rep

/-- Models strings.ReplaceAll on strings (with the Go convention that an
empty pattern leaves the subject unchanged for the placeholder patterns used
here, which are never empty). -/
def replaceAll (s pattern replacement : String) : String :=
  if pattern.data = [] then s
  else String.mk (replaceAllChars (s.data.length + 1) s.data pattern.data replacement.data)

/-- substituteTemplate from internal/agents (collector.go): for each bound
variable KEY, replaces every occurrence of the placeholder $\x7bKEY\x7d with
its value.  The Go original folds over a map; here the bindings are an
association list folded in order. -/
def substituteTemplate (template : String) (vars : List (String × String)) : String :=
  vars.foldl (fun result kv => replaceAll result ("$\x7b" ++ kv.1 ++ "\x7d") kv.2) template

/-- The empty environment: every variable unset. -/
def emptyEnv : Env := fun _ => none

/-- An environment binding a single variable. -/
def singleEnv (k v : String) : Env :=
  fun key => if key = k then some v else none

end Shoot.Config

namespace Shoot.Model

/-- The function payload of an OpenAI tool call: a tool name and the encoded
(JSON text) arguments, as in the openai-go ChatCompletionMessageToolCall. -/
structure ToolCallFunction where
  name : String
  arguments : String
deriving Repr, DecidableEq

/-- An OpenAI tool call as seen by simpleConvertFromOpenAIResponse. -/
structure ToolCall where
  function : ToolCallFunction
deriving Repr, DecidableEq

/-- The message of an OpenAI chat-completion choice: text content plus the
requested tool calls. -/
structure ChatMessage where
  content : String
  toolCalls : List ToolCall
deriving Repr, DecidableEq

/-- An OpenAI chat-completion choice: message plus the provider finish
reason, which arrives as a string. -/
structure ChatCompletionChoice where
  message : ChatMessage
  finishReason : String
deriving Repr, DecidableEq

/-- The genai finish reasons the adapter in internal/model actually
produces: FinishReasonStop, FinishReasonMaxTokens, FinishReasonSafety and
FinishReasonOther.  The genai enumeration has no tool-calls value. -/
inductive FinishReason where
  | stop : FinishReason
  | maxTokens : FinishReason
  | safety : FinishReason
  | other : FinishReason
deriving Repr, DecidableEq

/-- A decoded genai FunctionCall part: name plus structured arguments. -/
structure FunctionCall where
  name : String
  args : List (String × Shoot.Json)
deriving Inhabited

/-- A genai Part: either text or a function call (the adapter never sets
both on one part). -/
structure Part where
  text : String
  functionCall : Option FunctionCall

/-- A pure text part. -/
def textPart (s : String) : Part := ⟨s, none⟩

/-- A function-call part. -/
def callPart (fc : FunctionCall) : Part := ⟨"", some fc⟩

/-- A genai Content: role plus ordered parts. -/
structure Content where
  role : String
  parts : List Part

/-- The ADK LLMResponse assembled by simpleConvertFromOpenAIResponse. -/
structure LLMResponse where
  content : Content
  turnComplete : Bool
  finishReason : FinishReason

/-- The tool-call conversion loop of simpleConvertFromOpenAIResponse
(internal/model): each tool call has its encoded arguments decoded by
json.Unmarshal; the first decode failure aborts the whole conversion with an
error naming the offending arguments. -/
def convertToolCallParts : List ToolCall → Except String (List Part)
  | [] => Except.ok []
  | tc :: rest =>
    match Shoot.unmarshalMap tc.function.arguments with
    | none => Except.error ("failed to parse tool arguments: " ++ tc.function.arguments)
    | some args =>
      match convertToolCallParts rest with
      | Except.error e => Except.error e
      | Except.ok ps => Except.ok (callPart ⟨tc.function.name, args⟩ :: ps)

/-- simpleConvertFromOpenAIResponse (internal/model): builds the text part,
decodes every tool call, and maps the provider finish reason through the
switch of the source: stop to Stop, length to MaxTokens, tool_calls to Stop,
content_filter to Safety, anything else to Other. -/
def simpleConvertFromOpenAIResponse (choice : ChatCompletionChoice) : Except String LLMResponse :=
  let textParts : List Part :=
    if choice.message.content ≠ "" then [textPart choice.message.content] else []
  match convertToolCallParts choice.message.toolCalls with
  | Except.error e => Except.error e
  | Except.ok callParts =>
    let finishReason : FinishReason :=
      match choice.finishReason with
      | "stop" => FinishReason.stop
      | "length" => FinishReason.maxTokens
      | "tool_calls" => FinishReason.stop
      | "content_filter" => FinishReason.safety
      | _ => FinishReason.other
    Except.ok ⟨⟨"model", textParts ++ callParts⟩, true, finishReason⟩

/-- One provider interaction as observed by GenerateContent
(internal/model): a transport failure, a reply without choices, or a first
choice. -/
inductive ProviderReply where
  | failure : String → ProviderReply
  | noChoices : ProviderReply
  | reply : ChatCompletionChoice → ProviderReply

/-- The result GenerateContent yields for one provider interaction
(internal/model): transport failures and empty-choice replies become errors,
and a conversion failure of the first choice becomes an error wrapping the
conversion message; otherwise the converted response. -/
def generateContentResult : ProviderReply → Except String LLMResponse
  | ProviderReply.failure e => Except.error ("OpenAI API error: " ++ e)
  | ProviderReply.noChoices => Except.error "no choices in response"
  | ProviderReply.reply c =>
    match simpleConvertFromOpenAIResponse c with
    | Except.error e => Except.error ("failed to convert response: " ++ e)
    | Except.ok r => Except.ok r

end Shoot.Model

namespace Shoot.Agents

open Shoot.Model

/-- A runner event as consumed by Coordinator.Run
(internal/agents/coordinator.go): optional content whose text parts are
accumulated into the final output. -/
structure Event where
  content : Option Content

/-- The text the event loop of Coordinator.Run extracts from one event: the
concatenation of its non-empty text parts. -/
def eventText (ev : Event) : String :=
  match ev.content with
  | none => ""
  | some c => c.parts.foldl (fun acc p => if p.text ≠ "" then acc ++ p.text else acc) ""

/-- The event loop of Coordinator.Run: iterates the runner events in order,
accumulating text; the first error breaks the loop and the accumulated text
is discarded by the caller.  Returns the accumulated text of the events
before the first error, and that error if any. -/
def runLoop : List (Except String Event) → String × Option String
  | [] => ("", none)
  | Except.error e :: _ => ("", some e)
  | Except.ok ev :: rest =>
    let p := runLoop rest
    (eventText ev ++ p.1, p.2)

/-- Coordinator.Run (internal/agents/coordinator.go): returns the final
output when the event stream ends without an error, and a wrapped failure
otherwise. -/
def coordinatorRun (events : List (Except String Event)) : Except String String :=
  match runLoop events with
  | (_, some e) => Except.error ("coordinator execution failed: " ++ e)
  | (out, none) => Except.ok out

/-- Modelled from the spec: the ADK runner that connects
SimpleOpenAIModel.GenerateContent to Coordinator.Run is not part of this
repository.  Each model reply is converted by the adapter and forwarded as
one run event; an adapter failure surfaces as the error of the iteration.
Tool execution between model calls is elided (it adds events but never
removes an error). -/
def runnerEvents (replies : List ProviderReply) : List (Except String Event) :=
  replies.map (fun r =>
    match generateContentResult r with
    | Except.error e => Except.error e
    | Except.ok resp => Except.ok ⟨some resp.content⟩)

/-- A coordinator run driven by a sequence of provider interactions. -/
def runFromProvider (replies : List ProviderReply) : Except String String :=
  coordinatorRun (runnerEvents replies)

/-- Modelled from the spec: the terminal statuses named by the
specification.  The code of this repository produces only the first two. -/
inductive RunStatus where
  | completed : RunStatus
  | failed : RunStatus
  | timedOut : RunStatus
  | turnLimitExceeded : RunStatus
deriving Repr, DecidableEq

/-- The terminal status of a coordinator run: Coordinator.Run returns either
an output (completed) or an error (failed). -/
def statusOf : Except String String → RunStatus
  | Except.ok _ => RunStatus.completed
  | Except.error _ => RunStatus.failed

/-- A function tool as built by functiontool.New in NewCoordinator. -/
structure FunctionTool where
  name : String
  description : String
deriving Repr, DecidableEq

/-- A toolset handed to llmagent.New: either the simpleToolset of
coordinator.go wrapping function tools, or an MCP toolset spawning an
external tool-server command (collector.go). -/
inductive Toolset where
  | simple : String → String → List FunctionTool → Toolset
  | mcpCommand : String → List String → Toolset
deriving Repr, DecidableEq

/-- The collect_wc_data delegation tool from NewCoordinator. -/
def collectWCTool : FunctionTool :=
  ⟨"collect_wc_data",
   "Collect data from the workload cluster. Use this to gather runtime information about pods, deployments, services, nodes, and other Kubernetes resources in the workload cluster."⟩

/-- The collect_mc_data delegation tool from NewCoordinator. -/
def collectMCTool : FunctionTool :=
  ⟨"collect_mc_data",
   "Collect data from the management cluster. Use this to check App, HelmRelease, and CAPI/CAPA resources related to the workload cluster deployment."⟩

/-- The collectorToolset built in NewCoordinator: a simpleToolset wrapping
exactly the two delegation tools. -/
def collectorToolset : Toolset :=
  Toolset.simple "collector_tools"
    "Tools to collect data from workload and management clusters"
    [collectWCTool, collectMCTool]

/-- The toolsets of the coordinator llmagent (NewCoordinator): only the
collector toolset. -/
def coordinatorToolsets : List Toolset := [collectorToolset]

/-- The toolsets of the workload-cluster collector (NewWCCollector): one MCP
toolset spawning the Kubernetes tool server. -/
def wcCollectorToolsets : List Toolset :=
  [Toolset.mcpCommand "/usr/local/bin/mcp-kubernetes" ["serve", "--non-destructive"]]

/-- The toolsets of the management-cluster collector (NewMCCollector). -/
def mcCollectorToolsets : List Toolset :=
  [Toolset.mcpCommand "/usr/local/bin/mcp-kubernetes" ["serve", "--non-destructive", "--in-cluster"]]

/-- simpleToolset.Tools returns exactly the wrapped tools, for every
context; an MCP toolset contributes no function tool declared in this
repository (its tools are discovered from the external server). -/
def toolsetFunctionTools : Toolset → List FunctionTool
  | Toolset.simple _ _ ts => ts
  | Toolset.mcpCommand _ _ => []

/-- Whether a toolset reaches an external tool server directly. -/
def isMCPToolset : Toolset → Bool
  | Toolset.mcpCommand _ _ => true
  | Toolset.simple _ _ _ => false

/-- The tool set declared to the model for the coordinator: the union of the
tools of its toolsets. -/
def coordinatorDeclaredTools : List FunctionTool :=
  coordinatorToolsets.foldl (fun acc ts => acc ++ toolsetFunctionTools ts) []

/-- Outcome of dispatching a tool call by name. -/
inductive ToolDispatchResult where
  | delegated : String → String → ToolDispatchResult
  | toolNotAuthorized : String → ToolDispatchResult
deriving Repr, DecidableEq

/-- Modelled from the spec: the tool lookup of the ADK runner is not under
src/; a requested tool name is resolved against the declared tool set and
any name outside it fails with ToolNotAuthorized without reaching a
provider. -/
def dispatchTool (declared : List FunctionTool) (name query : String) : ToolDispatchResult :=
  match declared.find? (fun t => t.name == name) with
  | some t => ToolDispatchResult.delegated t.name query
  | none => ToolDispatchResult.toolNotAuthorized name

end Shoot.Agents

namespace Shoot.Server

/-- The component fields of the Server struct that ReadyHandler consults
(internal/server/handlers.go): whether each agent pointer is non-nil. -/
structure ServerState where
  wcCollectorPresent : Bool
  mcCollectorPresent : Bool
  coordinatorPresent : Bool
deriving Repr, DecidableEq

/-- External state the readiness endpoint could observe but, in this
implementation, never consults: whether each declared tool server can be
opened and whether the model endpoint is reachable. -/
structure World where
  wcToolServerOpens : Bool
  mcToolServerOpens : Bool
  modelReachable : Bool
deriving Repr, DecidableEq

/-- The ReadyResponse body of internal/server/handlers.go.  The Status field
is set to "ready" before the checks and is never changed, even on the 503
path. -/
structure ReadyResponse where
  status : String
  kubernetesWC : Bool
  kubernetesMC : Bool
  coordinator : Bool
deriving Repr, DecidableEq

/-- ReadyHandler (internal/server/handlers.go): builds the response from the
non-nil checks of the three agent pointers and returns 503 when any is
missing, 200 otherwise.  The world argument records that no external check
is performed: the result does not depend on it. -/
def ReadyHandler (s : ServerState) (_w : World) : Nat × ReadyResponse :=
  let checks : ReadyResponse :=
    ⟨"ready", s.wcCollectorPresent, s.mcCollectorPresent, s.coordinatorPresent⟩
  if !checks.kubernetesWC || !checks.kubernetesMC || !checks.coordinator then
    (503, checks)
  else
    (200, checks)

/-- Modelled from the spec: a deep readiness check opens every declared tool
server and confirms the model endpoint is reachable, and reports not-ready
when any of these checks fails. -/
def specDeepReady (w : World) : Bool :=
  w.wcToolServerOpens && w.mcToolServerOpens && w.modelReachable

/-- The outcome of QueryHandler before any model work: either an immediate
HTTP response, or the start of a coordinator run for the query. -/
inductive HandlerOutcome where
  | respond : Nat → String → HandlerOutcome
  | runCoordinator : String → HandlerOutcome

/-- Models json.Decoder.Decode of the request body into QueryRequest
(internal/server/handlers.go): the first JSON value of the body must be an
object (or null, which leaves the struct zeroed); a "query" member must be a
string; a missing member leaves the query empty.  Returns the decoded query,
or none when decoding errors. -/
def decodeQueryRequest (body : String) : Option String :=
  match Shoot.parseValue (body.length + 1) body.data with
  | none => none
  | some (v, _) =>
    match v with
    | Shoot.Json.null => some ""
    | Shoot.Json.obj kvs =>
      match kvs.find? (fun kv => kv.1 == "query") with
      | none => some ""
      | some (_, Shoot.Json.str s) => some s
      | some _ => none
    | _ => none

/-- QueryHandler (internal/server/handlers.go), up to the point where the
coordinator is invoked: non-POST methods get 405, an undecodable body gets
400, an empty query gets 400, and only otherwise is the coordinator run
started. -/
def QueryHandler (method : String) (body : String) : HandlerOutcome :=
  if method ≠ "POST" then
    HandlerOutcome.respond 405 "Method not allowed"
  else
    match decodeQueryRequest body with
    | none => HandlerOutcome.respond 400 "Invalid request body"
    | some q =>
      if q = "" then HandlerOutcome.respond 400 "Query is required"
      else HandlerOutcome.runCoordinator q

/-- Whether the handler outcome starts a coordinator run. -/
def startsRun : HandlerOutcome → Bool
  | HandlerOutcome.runCoordinator _ => true
  | HandlerOutcome.respond _ _ => false

/-- The HTTP status of an immediate response, if any. -/
def statusCode : HandlerOutcome → Option Nat
  | HandlerOutcome.respond s _ => some s
  | HandlerOutcome.runCoordinator _ => none

/-- The error detail of an immediate response. -/
def responseDetail : HandlerOutcome → String
  | HandlerOutcome.respond _ d => d
  | HandlerOutcome.runCoordinator _ => ""

end Shoot.Server

/-! ## Concrete instances used by the theorems -/

/-- A provider choice whose tool-call arguments are not decodable JSON. -/
def badToolCallChoice : Shoot.Model.ChatCompletionChoice :=
  ⟨⟨"", [⟨⟨"collect_wc_data", "not json"⟩⟩]⟩, "tool_calls"⟩

/-- A well-formed stop reply that would let a run recover. -/
def recoveryChoice : Shoot.Model.ChatCompletionChoice :=
  ⟨⟨"recovered", []⟩, "stop"⟩

/-- A provider choice requesting a delegation with well-formed JSON
arguments and finish reason tool_calls. -/
def toolCallsFinishChoice : Shoot.Model.ChatCompletionChoice :=
  ⟨⟨"", [⟨⟨"collect_wc_data", "\x7b\"query\": \"pods\"\x7d"⟩⟩]⟩, "tool_calls"⟩

/-- A plain stop reply carrying text. -/
def stopFinishChoice : Shoot.Model.ChatCompletionChoice :=
  ⟨⟨"done", []⟩, "stop"⟩

/-- A runner event carrying one text part. -/
def xTextEvent : Except String Shoot.Agents.Event :=
  Except.ok ⟨some ⟨"model", [Shoot.Model.textPart "x"]⟩⟩

/-- A server state with all three agent pointers initialized. -/
def allPresent : Shoot.Server.ServerState := ⟨true, true, true⟩

/-- A world in which the workload-cluster tool server fails to open. -/
def brokenToolServerWorld : Shoot.Server.World := ⟨false, true, true⟩

/-- An environment in which the collector-model variable is set to the empty
string and the two required variables are set. -/
def collectorEmptyEnv : Shoot.Config.Env := fun k =>
  if k = "OPENAI_COLLECTOR_MODEL" then some ""
  else if k = "OPENAI_API_KEY" then some "sk-test"
  else if k = "OPENAI_COORDINATOR_MODEL" then some "gpt-5"
  else none

/-! ## Claim theorems -/

/-- C1: the tool set declared to the model for the coordinator is exactly
the delegation tools for its two configured collectors, collect_wc_data and
collect_mc_data; the coordinator carries no tool-server (MCP) toolset, so it
can issue no raw tool call; and dispatching any name outside the declared
set fails with ToolNotAuthorized. -/
theorem c1_coordinator_tool_surface :
    (Shoot.Agents.coordinatorDeclaredTools.map Shoot.Agents.FunctionTool.name
      = ["collect_wc_data", "collect_mc_data"]) ∧
    (∀ ts ∈ Shoot.Agents.coordinatorToolsets, Shoot.Agents.isMCPToolset ts = false) ∧
    (∀ name query : String, name ∉ (["collect_wc_data", "collect_mc_data"] : List String) →
      Shoot.Agents.dispatchTool Shoot.Agents.coordinatorDeclaredTools name query
        = Shoot.Agents.ToolDispatchResult.toolNotAuthorized name) := by
  refine ⟨rfl, ?_, ?_⟩
  · intro ts hts
    simp only [Shoot.Agents.coordinatorToolsets, List.mem_singleton] at hts
    subst hts
    rfl
  · intro name query hname
    simp only [List.mem_cons, List.mem_singleton, not_or] at hname
    obtain ⟨h1, h2, -⟩ := hname
    have hwc : (("collect_wc_data" : String) == name) = false :=
      beq_eq_false_iff_ne.mpr (Ne.symm h1)
    have hmc : (("collect_mc_data" : String) == name) = false :=
      beq_eq_false_iff_ne.mpr (Ne.symm h2)
    have hED : Shoot.Agents.coordinatorDeclaredTools
        = [Shoot.Agents.collectWCTool, Shoot.Agents.collectMCTool] := rfl
    rw [hED]
    simp [Shoot.Agents.dispatchTool, List.find?, Shoot.Agents.collectWCTool,
      Shoot.Agents.collectMCTool, hwc, hmc]

/-- C1 witness: dispatching an unauthorized tool name against the
coordinator tool set fails with ToolNotAuthorized. -/
theorem c1_coordinator_tool_surface_witness :
    Shoot.Agents.dispatchTool Shoot.Agents.coordinatorDeclaredTools "pods_list" "list pods"
      = Shoot.Agents.ToolDispatchResult.toolNotAuthorized "pods_list" :=
  c1_coordinator_tool_surface.2.2 "pods_list" "list pods" (by decide)

/-- C2 counterexample: a reply whose tool-call arguments fail to decode
terminates the run with a failure even though a well-formed reply follows;
no tool-result turn recording the failure is appended and the run does not
continue to the next model call. -/
theorem c2_decode_failure_terminates_run_counterexample :
    Shoot.Agents.runFromProvider
        [Shoot.Model.ProviderReply.reply badToolCallChoice,
         Shoot.Model.ProviderReply.reply recoveryChoice]
      = Except.error
          "coordinator execution failed: failed to convert response: failed to parse tool arguments: not json" := by
  rfl

/-- C2 amended: a tool-call decode failure is a hard error that aborts the
whole run: the adapter conversion fails, the run loop breaks on the error,
and the run terminates with a failure naming the undecodable arguments,
regardless of any later provider replies. -/
theorem c2_amended_decode_failure_is_hard_error
    (tc : Shoot.Model.ToolCall) (tcs : List Shoot.Model.ToolCall)
    (choice : Shoot.Model.ChatCompletionChoice) (rest : List Shoot.Model.ProviderReply)
    (hcalls : choice.message.toolCalls = tc :: tcs)
    (hbad : Shoot.unmarshalMap tc.function.arguments = none) :
    Shoot.Agents.runFromProvider (Shoot.Model.ProviderReply.reply choice :: rest)
      = Except.error ("coordinator execution failed: "
          ++ ("failed to convert response: "
          ++ ("failed to parse tool arguments: " ++ tc.function.arguments))) := by
  simp [Shoot.Agents.runFromProvider, Shoot.Agents.runnerEvents,
    Shoot.Model.generateContentResult, Shoot.Model.simpleConvertFromOpenAIResponse,
    hcalls, Shoot.Model.convertToolCallParts, hbad,
    Shoot.Agents.coordinatorRun, Shoot.Agents.runLoop]

/-- C2 witness for the amended theorem, at a concrete undecodable reply. -/
theorem c2_amended_witness :
    Shoot.Agents.runFromProvider [Shoot.Model.ProviderReply.reply badToolCallChoice]
      = Except.error ("coordinator execution failed: "
          ++ ("failed to convert response: "
          ++ ("failed to parse tool arguments: " ++ "not json"))) :=
  c2_amended_decode_failure_is_hard_error ⟨⟨"collect_wc_data", "not json"⟩⟩ []
    badToolCallChoice [] rfl rfl

/-- C3 counterexample: the adapter maps the provider finish reason
tool_calls to the same neutral value as stop, FinishReasonStop; the neutral
codomain produced by the adapter has no distinct tool-calls finish
reason. -/
theorem c3_tool_calls_maps_to_stop_counterexample :
    (Shoot.Model.simpleConvertFromOpenAIResponse toolCallsFinishChoice).map
        Shoot.Model.LLMResponse.finishReason
      = Except.ok Shoot.Model.FinishReason.stop ∧
    (Shoot.Model.simpleConvertFromOpenAIResponse stopFinishChoice).map
        Shoot.Model.LLMResponse.finishReason
      = Except.ok Shoot.Model.FinishReason.stop := by
  exact ⟨rfl, rfl⟩

/-- C3 amended: the adapter maps provider finish reasons into the set
consisting of stop, max-tokens, safety and other: both stop and tool_calls
map to stop, length maps to max-tokens, content_filter maps to safety, and
every other provider value maps to other; the conversion result carries the
mapped reason exactly when every tool call decodes. -/
theorem c3_amended_finish_reason_mapping
    (msg : Shoot.Model.ChatMessage) (r : String) :
    (Shoot.Model.simpleConvertFromOpenAIResponse ⟨msg, r⟩).map
        Shoot.Model.LLMResponse.finishReason
      = (Shoot.Model.convertToolCallParts msg.toolCalls).map (fun _ =>
          if r = "stop" then Shoot.Model.FinishReason.stop
          else if r = "length" then Shoot.Model.FinishReason.maxTokens
          else if r = "tool_calls" then Shoot.Model.FinishReason.stop
          else if r = "content_filter" then Shoot.Model.FinishReason.safety
          else Shoot.Model.FinishReason.other) := by
  cases hc : Shoot.Model.convertToolCallParts msg.toolCalls with
  | error e => simp [Shoot.Model.simpleConvertFromOpenAIResponse, hc, Except.map]
  | ok ps =>
    simp only [Shoot.Model.simpleConvertFromOpenAIResponse, hc, Except.map]
    split <;> simp_all

/-- C4 counterexample: the first failed model call terminates the run with
status failed even though a successful reply is available next; the call is
not retried. -/
theorem c4_no_retry_counterexample :
    Shoot.Agents.runFromProvider
        [Shoot.Model.ProviderReply.failure "boom",
         Shoot.Model.ProviderReply.reply recoveryChoice]
      = Except.error "coordinator execution failed: OpenAI API error: boom" := by
  rfl

/-- C4 amended: a failed model call is not retried: the first adapter error
terminates the run immediately with a failure wrapping the transport error,
whatever provider replies would have followed. -/
theorem c4_amended_adapter_error_not_retried
    (e : String) (rest : List Shoot.Model.ProviderReply) :
    Shoot.Agents.runFromProvider (Shoot.Model.ProviderReply.failure e :: rest)
      = Except.error ("coordinator execution failed: " ++ ("OpenAI API error: " ++ e)) := by
  simp [Shoot.Agents.runFromProvider, Shoot.Agents.runnerEvents,
    Shoot.Model.generateContentResult, Shoot.Agents.coordinatorRun, Shoot.Agents.runLoop]

/-- C5 counterexample: with both required variables missing, loading reports
only the first problem, OPENAI_API_KEY, as a single error value; the
OPENAI_COORDINATOR_MODEL problem, reported on its own when the key is
present, is not included.  Validation is short-circuited. -/
theorem c5_validation_short_circuits_counterexample :
    Shoot.Config.LoadConfig Shoot.Config.emptyEnv
      = Except.error "OPENAI_API_KEY environment variable is required" ∧
    Shoot.Config.LoadConfig (Shoot.Config.singleEnv "OPENAI_API_KEY" "sk-test")
      = Except.error "OPENAI_COORDINATOR_MODEL environment variable is required" := by
  exact ⟨rfl, rfl⟩

/-- C5 amended: validation short-circuits at the first failing check: a
missing OPENAI_API_KEY is reported alone whatever other problems exist, a
missing OPENAI_COORDINATOR_MODEL is reported only when the key is present,
and in either case the process refuses to start the server. -/
theorem c5_amended_first_problem_only (env : Shoot.Config.Env) :
    (Shoot.Config.osGetenv env "OPENAI_API_KEY" = "" →
      Shoot.Config.LoadConfig env
        = Except.error "OPENAI_API_KEY environment variable is required" ∧
      Shoot.Config.serverStarts env = false) ∧
    (Shoot.Config.osGetenv env "OPENAI_API_KEY" ≠ "" →
      Shoot.Config.osGetenv env "OPENAI_COORDINATOR_MODEL" = "" →
      Shoot.Config.LoadConfig env
        = Except.error "OPENAI_COORDINATOR_MODEL environment variable is required" ∧
      Shoot.Config.serverStarts env = false) := by
  constructor
  · intro h
    have hl : Shoot.Config.LoadConfig env
        = Except.error "OPENAI_API_KEY environment variable is required" := by
      simp [Shoot.Config.LoadConfig, h]
    exact ⟨hl, by simp [Shoot.Config.serverStarts, hl, Except.isOk, Except.toBool]⟩
  · intro h1 h2
    have hl : Shoot.Config.LoadConfig env
        = Except.error "OPENAI_COORDINATOR_MODEL environment variable is required" := by
      simp [Shoot.Config.LoadConfig, h1, h2]
    exact ⟨hl, by simp [Shoot.Config.serverStarts, hl, Except.isOk, Except.toBool]⟩

/-- C5 witness for the amended theorem, at the empty environment. -/
theorem c5_amended_witness :
    Shoot.Config.LoadConfig Shoot.Config.emptyEnv
      = Except.error "OPENAI_API_KEY environment variable is required" ∧
    Shoot.Config.serverStarts Shoot.Config.emptyEnv = false :=
  (c5_amended_first_problem_only Shoot.Config.emptyEnv).1 rfl

/-- C6 counterexample: interpolation neither fails on an unset variable nor
supports the default syntax: an unbound reference survives literally (no
load failure occurs; substituteTemplate is a total function into String),
and a reference written with the default syntax is left unchanged even when
the variable is bound. -/
theorem c6_interpolation_counterexample :
    Shoot.Config.substituteTemplate "$\x7bVAR\x7d" [] = "$\x7bVAR\x7d" ∧
    Shoot.Config.substituteTemplate "$\x7bVAR:-default\x7d" [("VAR", "set-value")]
      = "$\x7bVAR:-default\x7d" := by
  exact ⟨rfl, rfl⟩

/-- C6 amended: substituteTemplate replaces exactly the plain placeholder
occurrences of the bound variables, leaves unbound references and
default-syntax references literally unchanged, and never fails; default
values come instead from getEnvOrDefault at the time the environment is
read. -/
theorem c6_amended_interpolation (t : String) :
    Shoot.Config.substituteTemplate t [] = t ∧
    Shoot.Config.substituteTemplate "investigate $\x7bWC_CLUSTER\x7d in $\x7bORG_NS\x7d"
        [("WC_CLUSTER", "wc1"), ("ORG_NS", "org-giantswarm")]
      = "investigate wc1 in org-giantswarm" ∧
    Shoot.Config.substituteTemplate "$\x7bMISSING\x7d stays" [("WC_CLUSTER", "wc1")]
      = "$\x7bMISSING\x7d stays" ∧
    Shoot.Config.getEnvOrDefault Shoot.Config.emptyEnv "OPENAI_COLLECTOR_MODEL" "gpt-4o-mini"
      = "gpt-4o-mini" := by
  exact ⟨rfl, rfl, rfl, rfl⟩

/-- C7 counterexample: a run of fifty turns terminates with status
completed and its full transcript is consumed; no turn-limit abort exists on
the run path of this code. -/
theorem c7_long_run_completes_counterexample :
    Shoot.Agents.statusOf (Shoot.Agents.coordinatorRun (List.replicate 50 xTextEvent))
      = Shoot.Agents.RunStatus.completed := by
  rfl

/-- C7 amended: the coordinator run enforces no turn budget: every run
terminates with status completed or failed (never turn-limit-exceeded), and
an error-free run of any length, however far beyond any would-be maximum,
completes normally. -/
theorem c7_amended_no_turn_budget :
    (∀ events, Shoot.Agents.statusOf (Shoot.Agents.coordinatorRun events)
        = Shoot.Agents.RunStatus.completed ∨
      Shoot.Agents.statusOf (Shoot.Agents.coordinatorRun events)
        = Shoot.Agents.RunStatus.failed) ∧
    (∀ n : Nat, Shoot.Agents.statusOf (Shoot.Agents.coordinatorRun (List.replicate n xTextEvent))
        = Shoot.Agents.RunStatus.completed) := by
  constructor
  · intro events
    cases h : Shoot.Agents.coordinatorRun events
    · right; rfl
    · left; rfl
  · intro n
    have hnone : (Shoot.Agents.runLoop (List.replicate n xTextEvent)).2 = none := by
      induction n with
      | zero => rfl
      | succ k ih =>
        simpa [List.replicate_succ, Shoot.Agents.runLoop, xTextEvent] using ih
    unfold Shoot.Agents.coordinatorRun
    rcases hr : Shoot.Agents.runLoop (List.replicate n xTextEvent) with ⟨out, err⟩
    rw [hr] at hnone
    simp only at hnone
    subst hnone
    rfl

/-- C8 counterexample: with all three agent pointers initialized, the
readiness endpoint answers 200 with body status ready even in a world where
a declared tool server fails to open, although the deep check of the spec
reports not-ready there. -/
theorem c8_shallow_readiness_counterexample :
    (Shoot.Server.ReadyHandler allPresent brokenToolServerWorld).1 = 200 ∧
    (Shoot.Server.ReadyHandler allPresent brokenToolServerWorld).2.status = "ready" ∧
    Shoot.Server.specDeepReady brokenToolServerWorld = false := by
  exact ⟨rfl, rfl, rfl⟩

/-- C8 amended: readiness is a shallow check of component initialization:
its answer is independent of whether tool servers open or the model endpoint
is reachable, and it returns 200 exactly when the two collectors and the
coordinator are initialized, 503 otherwise. -/
theorem c8_amended_shallow_readiness
    (s : Shoot.Server.ServerState) (w w2 : Shoot.Server.World) :
    Shoot.Server.ReadyHandler s w = Shoot.Server.ReadyHandler s w2 ∧
    ((Shoot.Server.ReadyHandler s w).1 =
      if s.wcCollectorPresent && s.mcCollectorPresent && s.coordinatorPresent
      then 200 else 503) := by
  refine ⟨rfl, ?_⟩
  obtain ⟨a, b, c⟩ := s
  cases a <;> cases b <;> cases c <;> rfl

/-- C9: a POST query request whose body does not decode or whose query field
is empty is answered with status 400 and a non-empty error detail, and the
coordinator run is never started. -/
theorem c9_invalid_query_rejected (body : String)
    (h : Shoot.Server.decodeQueryRequest body = none ∨
      Shoot.Server.decodeQueryRequest body = some "") :
    Shoot.Server.statusCode (Shoot.Server.QueryHandler "POST" body) = some 400 ∧
    Shoot.Server.startsRun (Shoot.Server.QueryHandler "POST" body) = false ∧
    Shoot.Server.responseDetail (Shoot.Server.QueryHandler "POST" body) ≠ "" := by
  rcases h with h | h <;>
    simp [Shoot.Server.QueryHandler, h, Shoot.Server.statusCode,
      Shoot.Server.startsRun, Shoot.Server.responseDetail]

/-- C9 witness: a body that is not JSON is rejected with 400 before any
coordinator work. -/
theorem c9_invalid_query_rejected_witness :
    Shoot.Server.statusCode (Shoot.Server.QueryHandler "POST" "not json") = some 400 ∧
    Shoot.Server.startsRun (Shoot.Server.QueryHandler "POST" "not json") = false ∧
    Shoot.Server.responseDetail (Shoot.Server.QueryHandler "POST" "not json") ≠ "" :=
  c9_invalid_query_rejected "not json" (Or.inl rfl)

/-- C10: a configuration variable read through getEnvOrDefault that is set
to the empty string behaves exactly like an unset variable: the default is
substituted, and the result coincides with the result on the environment
with the variable removed. -/
theorem c10_empty_value_equals_unset (env : Shoot.Config.Env) (key d : String)
    (h : env key = some "") :
    Shoot.Config.getEnvOrDefault env key d = d ∧
    Shoot.Config.getEnvOrDefault env key d
      = Shoot.Config.getEnvOrDefault (fun k => if k = key then none else env k) key d := by
  have h1 : Shoot.Config.osGetenv env key = "" := by
    simp [Shoot.Config.osGetenv, h]
  have h2 : Shoot.Config.osGetenv (fun k => if k = key then none else env k) key = "" := by
    simp [Shoot.Config.osGetenv]
  constructor
  · simp [Shoot.Config.getEnvOrDefault, h1]
  · simp [Shoot.Config.getEnvOrDefault, h1, h2]

/-- C10 witness: OPENAI_COLLECTOR_MODEL set to the empty string yields the
default gpt-4o-mini, as for an unset variable. -/
theorem c10_empty_value_equals_unset_witness :
    Shoot.Config.getEnvOrDefault collectorEmptyEnv "OPENAI_COLLECTOR_MODEL" "gpt-4o-mini"
      = "gpt-4o-mini" ∧
    Shoot.Config.getEnvOrDefault collectorEmptyEnv "OPENAI_COLLECTOR_MODEL" "gpt-4o-mini"
      = Shoot.Config.getEnvOrDefault
          (fun k => if k = "OPENAI_COLLECTOR_MODEL" then none else collectorEmptyEnv k)
          "OPENAI_COLLECTOR_MODEL" "gpt-4o-mini" :=
  c10_empty_value_equals_unset collectorEmptyEnv "OPENAI_COLLECTOR_MODEL" "gpt-4o-mini" rfl
